import Mathlib

/-!
Verification of the 9bikes monitoring control plane against its
natural-language specification.

The Lean definitions below are shallow embeddings of the Python sources:

* `infrastructure/alert-engine/engine.py` — alert engine
  (`_evaluate_condition`, `_set_cooldown`, `_create_alert`,
  `_evaluate_rule`, `_evaluation_cycle`, `start`);
* `infrastructure/alert-engine/notification_manager.py` — dispatcher
  (`send_alert_notification`, `_update_alert_delivery_status`);
* `src/monitors_mcp/mcp_server/__init__.py` — tool facade
  (`create_monitor`, `create_alert_rule`, `update_alert_rule`,
  `delete_alert_rule`, `acknowledge_alert`, `get_monitor_status`,
  `delete_monitor`);
* `src/monitors_mcp/auth/auth_manager.py` — `_derive_encryption_key`;
* `src/monitors_mcp/deployment.py` — `deploy_monitor`.

Machine reals are modelled as rationals (`ℚ`): per the data model (§3 of
the spec) the core treats sample fields as floating-point numbers, and
every constant appearing in the evaluated code paths (thresholds,
tolerance 0.001) is exactly representable.  Sample field maps are
association lists `String × Option ℚ`: a key bound to `none` models a
JSON null stored under the key, an absent key models a missing field.
Python dict `.get(k, d)` on condition dictionaries is modelled by
carrying each condition entry as an `Option` and applying `Option.getD`.
-/

/-- A time-series sample's field map under the §3 data model ("the core
treats fields as floating-point"); newest-first windows are
`List Sample`.  `none` values model stored JSON nulls.  The engine's
RAW windows can additionally carry string-valued fields (`symbol`,
`url`); those are modelled separately by `PySample` below, together
with the `float()` coercion that raw values go through. -/
abbrev Sample := List (String × Option ℚ)

/-- An alert-rule condition dictionary.  Each entry is optional because
the Python source reads every key with `condition.get(key, default)`
(`engine.py` lines 227–231). -/
structure Condition where
  type : Option String
  field : Option String
  operator : Option String
  value : Option ℚ
  aggregation : Option String
deriving Repr, DecidableEq

/-- The field-extraction loop of `_evaluate_condition`
(`engine.py` lines 234–237): collect `float(point[field])` for every
data point where `field in point and point[field] is not None`. -/
def extract_field_values (field : String) (data_points : List Sample) : List ℚ :=
  data_points.filterMap (fun point =>
    match List.lookup field point with
    | some (some v) => some v
    | _ => none)

/-- The aggregation dispatch of `_evaluate_condition`
(`engine.py` lines 243–252), applied to the nonempty value list
`v :: vs`: `latest` takes index 0, `avg` is `sum/len`, `max`/`min` are
Python `max(...)`/`min(...)`, anything else falls back to index 0. -/
def aggregate (aggregation : String) (v : ℚ) (vs : List ℚ) : ℚ :=
  if aggregation = "latest" then v
  else if aggregation = "avg" then (v :: vs).sum / ((v :: vs).length : ℚ)
  else if aggregation = "max" then vs.foldl max v
  else if aggregation = "min" then vs.foldl min v
  else v

/-- The threshold comparison chain of `_evaluate_condition`
(`engine.py` lines 255–267); an unrecognised operator falls through to
the final `return False` (line 269). -/
def compare_threshold (operator : String) (current_value threshold_value : ℚ) : Bool :=
  if operator = ">" then decide (current_value > threshold_value)
  else if operator = "<" then decide (current_value < threshold_value)
  else if operator = ">=" then decide (current_value ≥ threshold_value)
  else if operator = "<=" then decide (current_value ≤ threshold_value)
  else if operator = "==" then decide (|current_value - threshold_value| < 1/1000)
  else if operator = "!=" then decide (|current_value - threshold_value| ≥ 1/1000)
  else false

/-- `AlertEngine._evaluate_condition` (`engine.py` lines 211–269). -/
def evaluate_condition (condition : Condition) (data_points : List Sample) : Bool :=
  if data_points.isEmpty then false
  else
    let condition_type := condition.type.getD "threshold"
    let field := condition.field.getD "value"
    let operator := condition.operator.getD ">"
    let threshold_value := condition.value.getD 0
    let aggregation := condition.aggregation.getD "latest"
    match extract_field_values field data_points with
    | [] => false
    | v :: vs =>
      let current_value := aggregate aggregation v vs
      if condition_type = "threshold" then
        compare_threshold operator current_value threshold_value
      else
        false

/-! ## Relational rows (models.py) -/

/-- A `monitors` row (models.py lines 45–66).  `status` defaults to
`"starting"` (line 56); `deployment_id` is nullable. -/
structure Monitor where
  id : String
  user_id : String
  name : String
  monitor_type : String
  status : String
  deployment_id : Option String
  secret_ids : List (String × String)
deriving Repr, DecidableEq

/-- An `alert_rules` row (models.py lines 168–184).  `cooldown_minutes`
is a nullable integer column. -/
structure AlertRule where
  id : String
  monitor_id : String
  user_id : String
  title : String
  condition : Condition
  severity : String
  cooldown_minutes : Option ℤ
  is_active : Bool
deriving Repr, DecidableEq

/-- An `alerts` row (models.py lines 186–207).  Timestamps are modelled
as naturals. -/
structure Alert where
  id : String
  rule_id : String
  monitor_id : String
  user_id : String
  severity : String
  title : String
  status : String
  delivered_channels : Option (List String)
  delivered_at : Option ℕ
  acknowledged_at : Option ℕ
  created_at : ℕ
deriving Repr, DecidableEq

/-- The relational store visible to the tool facade and the engine. -/
structure DB where
  monitors : List Monitor
  rules : List AlertRule
  alerts : List Alert
deriving Repr, DecidableEq

/-! ## Cooldown store (engine.py lines 271–286) -/

/-- The distributed cooldown store: an association list from key to the
ttl (seconds) it was last written with.  A marker whose ttl is positive
is live for an immediately subsequent `exists` check; a marker written
with ttl 0 expires at once. -/
abbrev CooldownStore := List (String × ℤ)

/-- `redis.exists(key)` immediately after the writes recorded in the
store: present iff the key was written with a positive ttl. -/
def redis_exists (store : CooldownStore) (key : String) : Bool :=
  match store.lookup key with
  | some ttl => decide (0 < ttl)
  | none => false

/-- The ttl computed by `AlertEngine._set_cooldown` (engine.py line
285): `cooldown_seconds = (rule.cooldown_minutes or 5) * 60`.  Python
`or` falls through to the default 5 when the column is NULL *or* 0,
since `0` is falsy. -/
def set_cooldown_seconds (cooldown_minutes : Option ℤ) : ℤ :=
  (match cooldown_minutes with
   | none => 5
   | some m => if m = 0 then 5 else m) * 60

/-- `AlertEngine._set_cooldown` (engine.py lines 279–286): no-op when
the cooldown store is unavailable, otherwise `setex` of the marker with
the computed ttl. -/
def set_cooldown (redis : Option CooldownStore) (rule : AlertRule) :
    Option CooldownStore :=
  match redis with
  | none => none
  | some store =>
    some (("alert_cooldown:" ++ rule.id, set_cooldown_seconds rule.cooldown_minutes) :: store)

/-- `AlertEngine._is_in_cooldown` (engine.py lines 271–277): `false`
when the store is unavailable (fail-open), otherwise `exists`. -/
def is_in_cooldown (redis : Option CooldownStore) (rule : AlertRule) : Bool :=
  match redis with
  | none => false
  | some store => redis_exists store ("alert_cooldown:" ++ rule.id)

/-! ## Engine rule-evaluation flow (engine.py lines 87–123, 288–319) -/

/-- The external effects `_create_alert` performs, passed explicitly:
the monitor lookup result, the outcome of `session.add`/`commit` of the
alert row, and the outcome of the notification dispatch.  `Except`
models a raised exception. -/
structure CreateAlertEnv where
  monitor : Option Monitor
  persist : Except String Unit
  notify : Except String Unit

/-- `AlertEngine._create_alert` (engine.py lines 288–319).  The whole
body sits in `try/except` (lines 290, 318–319), so no outcome
propagates an exception; the result is `(alert row committed,
notification dispatched)`.  A missing monitor returns early (line 296);
a commit failure is caught with no row persisted; a dispatch failure
after commit is caught with the row kept. -/
def create_alert (env : CreateAlertEnv) : Bool × Bool :=
  match env.monitor with
  | none => (false, false)
  | some _ =>
    match env.persist with
    | .error _ => (false, false)
    | .ok _ =>
      match env.notify with
      | .error _ => (true, false)
      | .ok _ => (true, true)

/-- `AlertEngine._evaluate_rule` (engine.py lines 103–123).  Returns the
cooldown store after the call and the flags `(triggered, alert row
committed, notification dispatched)`. -/
def evaluate_rule (rule : AlertRule) (redis : Option CooldownStore)
    (monitor_data : List Sample) (env : CreateAlertEnv) :
    Option CooldownStore × Bool × Bool × Bool :=
  if is_in_cooldown redis rule then (redis, false, false, false)
  else if monitor_data.isEmpty then (redis, false, false, false)
  else if evaluate_condition rule.condition monitor_data then
    let result := create_alert env
    (set_cooldown redis rule, true, result.1, result.2)
  else (redis, false, false, false)

/-- The per-rule loop of `AlertEngine._evaluation_cycle` (engine.py
lines 97–101): each rule's evaluation runs inside `try/except`, an
exception is logged (recorded here as `some message`) and the loop
moves to the next rule.  The rule evaluation's outcome is an oracle
parameter since it performs I/O. -/
def evaluation_cycle (rule_outcome : AlertRule → Except String Unit)
    (alert_rules : List AlertRule) : List (AlertRule × Option String) :=
  alert_rules.map (fun rule =>
    match rule_outcome rule with
    | .ok _ => (rule, none)
    | .error e => (rule, some e))

/-- One iteration of the `while self.running` loop of
`AlertEngine.start` (engine.py lines 72–78): the tick runs inside
`try/except`; on success the loop sleeps the interval and continues, on
exception it logs, sleeps the interval and continues.  The result is
`(loop continues, seconds slept)`. -/
def engine_loop_iteration (tick : Except String Unit)
    (evaluation_interval : ℕ) : Bool × ℕ :=
  match tick with
  | .ok _ => (true, evaluation_interval)
  | .error _ => (true, evaluation_interval)

/-! ## Notification dispatcher (notification_manager.py) -/

/-- The external world seen by one `send_alert_notification` run, passed
explicitly: whether the alert's user row exists, whether the SendGrid
client was configured (`SENDGRID_API_KEY` present, lines 37–44), and
for each channel the HTTP status of its call, `none` meaning a
transport error (or that no call happened). -/
structure DispatchEnv where
  user_found : Bool
  sendgrid_configured : Bool
  email_http : Option ℕ
  slack_webhook : Bool
  slack_http : Option ℕ
  discord_webhook : Bool
  discord_http : Option ℕ
  teams_webhook : Bool
  teams_http : Option ℕ
deriving Repr, DecidableEq

/-- Success predicate of an HTTP result: a 2xx status.  `none`
(transport error / no call) is never a success. -/
def is_2xx : Option ℕ → Bool
  | some s => decide (200 ≤ s) && decide (s < 300)
  | none => false

/-- `_send_email_notification` (lines 120–177) viewed as "returned
without raising": when no SendGrid client is configured it logs and
returns normally WITHOUT any HTTP call (lines 122–124); otherwise the
SendGrid send raises unless the provider call succeeds (2xx). -/
def send_email_ok (env : DispatchEnv) : Bool :=
  if env.sendgrid_configured then is_2xx env.email_http else true

/-- One webhook send (`_send_slack_notification` etc., lines 219–221,
259–261, 288–290): `async with self.http_client` re-opens the shared
client, which raises if a previous webhook send already closed it; on
exit the block closes the client in every case.  Returns
`(returned without raising, client open afterwards)`. -/
def send_webhook (client_open : Bool) (http : Option ℕ) : Bool × Bool :=
  (client_open && is_2xx http, false)

/-- The channel loop of `send_alert_notification` (lines 62–102):
email is attempted always (preferences default email to enabled, lines
66, 112–118), each webhook channel only when its URL is configured;
`delivered_channels` collects the channels whose send returned without
raising, in source order email, slack, discord, teams. -/
def delivered_channels_of (env : DispatchEnv) : List String :=
  let email_ok := send_email_ok env
  let slack := if env.slack_webhook then send_webhook true env.slack_http
    else (false, true)
  let discord := if env.discord_webhook then send_webhook slack.2 env.discord_http
    else (false, slack.2)
  let teams := if env.teams_webhook then send_webhook discord.2 env.teams_http
    else (false, discord.2)
  (if email_ok then ["email"] else []) ++
  (if slack.1 then ["slack"] else []) ++
  (if discord.1 then ["discord"] else []) ++
  (if teams.1 then ["teams"] else [])

/-- `_update_alert_delivery_status` (lines 292–304) applied to the
alert row it finds: store the delivered channel list, stamp
`delivered_at`, and set `status` to `"delivered"` iff the list is
nonempty, else `"failed"` (line 300).  The healthy-store commit path is
modelled; on a store error the source only logs. -/
def update_alert_delivery_status (alert : Alert) (delivered : List String)
    (now : ℕ) : Alert :=
  { alert with
    delivered_channels := some delivered,
    delivered_at := some now,
    status := if delivered.isEmpty then "failed" else "delivered" }

/-- `send_alert_notification` (lines 46–105) acting on the alert row:
when the user row is missing it returns before any send or update
(lines 54–57); otherwise it runs the channel loop and updates the
alert's delivery state. -/
def send_alert_notification (env : DispatchEnv) (alert : Alert) (now : ℕ) :
    Alert :=
  if env.user_found then
    update_alert_delivery_status alert (delivered_channels_of env) now
  else alert

/-! ## Tool facade (mcp_server/__init__.py) -/

/-- `Monitor.get_by_id_and_user` (models.py lines 94–103): first row
matching both the id and the owning user. -/
def Monitor_get_by_id_and_user (db : DB) (monitor_id user_id : String) :
    Option Monitor :=
  db.monitors.find? (fun m => m.id == monitor_id && m.user_id == user_id)

/-- Insertion step for `ORDER BY created_at DESC` (newest first). -/
def insert_desc (a : Alert) : List Alert → List Alert
  | [] => [a]
  | b :: bs => if b.created_at ≤ a.created_at then a :: b :: bs
    else b :: insert_desc a bs

/-- `ORDER BY created_at DESC` as an insertion sort. -/
def sort_desc : List Alert → List Alert
  | [] => []
  | a :: as => insert_desc a (sort_desc as)

/-- `Alert.get_by_monitor` (models.py lines 210–218): alerts of one
monitor, newest first, at most `limit`. -/
def Alert_get_by_monitor (db : DB) (monitor_id : String) (limit : ℕ) :
    List Alert :=
  (sort_desc (db.alerts.filter (fun a => a.monitor_id == monitor_id))).take limit

/-- `get_monitor_status` (mcp_server lines 246–285): requires a
session, verifies ownership via `Monitor.get_by_id_and_user`, and on
success returns the monitor plus its ten most recent alerts.  Result is
`(success, returned monitor, returned alerts)`; the facade mutates
nothing.  Divergence, deliberately kept: the source's alert
serialization reads `alert.level`, `alert.message`,
`alert.triggered_at` (line 264) — fields the `Alert` model does not
have — so on any monitor WITH alerts the real handler raises
`AttributeError` into its catch-all and answers `success: false` with
no payload; the model keeps the success path and returns the alerts,
which only strengthens the ownership obligations proved about it. -/
def get_monitor_status (db : DB) (session_user : Option String)
    (monitor_id : String) : Bool × Option Monitor × List Alert :=
  match session_user with
  | none => (false, none, [])
  | some user_id =>
    match Monitor_get_by_id_and_user db monitor_id user_id with
    | none => (false, none, [])
    | some m => (true, some m, Alert_get_by_monitor db monitor_id 10)

/-- `acknowledge_alert` (mcp_server lines 657–686): the alert is looked
up filtered by id AND the session user; on a miss the response is a
failure and nothing changes; on a hit the row gets `acknowledged_at`
and status `"acknowledged"`.  Result is `(success, new store, returned
alert)`. -/
def acknowledge_alert (db : DB) (session_user : Option String)
    (alert_id : String) (now : ℕ) : Bool × DB × Option Alert :=
  match session_user with
  | none => (false, db, none)
  | some user_id =>
    match db.alerts.find? (fun a => a.id == alert_id && a.user_id == user_id) with
    | none => (false, db, none)
    | some a =>
      (true,
       { db with alerts := db.alerts.map (fun b =>
          if b.id == alert_id && b.user_id == user_id then
            { b with acknowledged_at := some now, status := "acknowledged" }
          else b) },
       some { a with acknowledged_at := some now, status := "acknowledged" })

/-- `delete_alert_rule` (mcp_server lines 753–777): lookup filtered by
id AND session user; failure and no change on a miss, row removed on a
hit. -/
def delete_alert_rule (db : DB) (session_user : Option String)
    (rule_id : String) : Bool × DB :=
  match session_user with
  | none => (false, db)
  | some user_id =>
    match db.rules.find? (fun r => r.id == rule_id && r.user_id == user_id) with
    | none => (false, db)
    | some _ =>
      (true, { db with rules :=
        db.rules.filter (fun r => !(r.id == rule_id && r.user_id == user_id)) })

/-- `delete_monitor` (mcp_server lines 287–317): ownership check via
`Monitor.get_by_id_and_user`, then `Monitor.delete` removes the row by
id alone (models.py lines 105–116).  The cluster stop and the secret
deletions act on stores outside `DB`. -/
def delete_monitor (db : DB) (session_user : Option String)
    (monitor_id : String) : Bool × DB :=
  match session_user with
  | none => (false, db)
  | some user_id =>
    match Monitor_get_by_id_and_user db monitor_id user_id with
    | none => (false, db)
    | some _ =>
      (true, { db with monitors := db.monitors.filter (fun m => !(m.id == monitor_id)) })

/-- The condition-shape validation shared by `create_alert_rule`
(mcp_server lines 523–526) and `update_alert_rule` (lines 716–719):
`all(field in condition for field in ["type", "field", "operator",
"value"])` — key PRESENCE only, the value under `type` is never
inspected. -/
def condition_has_required_fields (c : Condition) : Bool :=
  c.type.isSome && c.field.isSome && c.operator.isSome && c.value.isSome

/-- The severity whitelist of `create_alert_rule` (lines 529–531) and
`update_alert_rule` (lines 722–724). -/
def valid_severities : List String := ["low", "medium", "high", "critical"]

/-- `create_alert_rule` (mcp_server lines 507–567): session check,
monitor-ownership check, condition key-presence check, severity check,
then the rule row is inserted (active, the given cooldown).  Result is
`(success, new store)`. -/
def create_alert_rule (db : DB) (session_user : Option String)
    (monitor_id title : String) (condition : Condition) (severity : String)
    (cooldown_minutes : ℤ) (new_id : String) : Bool × DB :=
  match session_user with
  | none => (false, db)
  | some user_id =>
    match Monitor_get_by_id_and_user db monitor_id user_id with
    | none => (false, db)
    | some _ =>
      if !condition_has_required_fields condition then (false, db)
      else if !valid_severities.contains severity then (false, db)
      else
        (true, { db with rules := db.rules ++
          [⟨new_id, monitor_id, user_id, title, condition, severity,
            some cooldown_minutes, true⟩] })

/-- The trailing field updates of `update_alert_rule` (mcp_server lines
726–729): `cooldown_minutes` then `is_active`, no validation. -/
def update_rule_tail (row : AlertRule) (cooldown_minutes : Option ℤ)
    (is_active : Option Bool) : AlertRule :=
  let r1 := match cooldown_minutes with
    | some m => { row with cooldown_minutes := some m }
    | none => row
  match is_active with
  | some b => { r1 with is_active := b }
  | none => r1

/-- The severity update step of `update_alert_rule` (lines 721–725):
an invalid severity returns a failure — but the session context manager
(database/__init__.py lines 100–111) still commits the mutations already
applied to the row. -/
def update_rule_severity_onward (row : AlertRule) (severity : Option String)
    (cooldown_minutes : Option ℤ) (is_active : Option Bool) : Bool × AlertRule :=
  match severity with
  | some s =>
    if valid_severities.contains s then
      (true, update_rule_tail { row with severity := s } cooldown_minutes is_active)
    else (false, row)
  | none => (true, update_rule_tail row cooldown_minutes is_active)

/-- The sequential field updates of `update_alert_rule` (lines
712–729): title unconditionally, then the condition only after the
key-presence check (an invalid condition returns failure with the
title mutation already applied and committed), then severity onward. -/
def update_rule_fields (row : AlertRule) (title : Option String)
    (condition : Option Condition) (severity : Option String)
    (cooldown_minutes : Option ℤ) (is_active : Option Bool) : Bool × AlertRule :=
  let row1 := match title with
    | some t => { row with title := t }
    | none => row
  match condition with
  | some c =>
    if condition_has_required_fields c then
      update_rule_severity_onward { row1 with condition := c } severity
        cooldown_minutes is_active
    else (false, row1)
  | none => update_rule_severity_onward row1 severity cooldown_minutes is_active

/-- `update_alert_rule` (mcp_server lines 688–751): lookup filtered by
id AND session user (failure, no change on a miss), then the field
updates; the row state reached when the handler returns is committed by
the session context manager whether validation succeeded or not. -/
def update_alert_rule (db : DB) (session_user : Option String)
    (rule_id : String) (title : Option String) (condition : Option Condition)
    (severity : Option String) (cooldown_minutes : Option ℤ)
    (is_active : Option Bool) : Bool × DB :=
  match session_user with
  | none => (false, db)
  | some user_id =>
    match db.rules.find? (fun r => r.id == rule_id && r.user_id == user_id) with
    | none => (false, db)
    | some _ =>
      let ok := (update_rule_fields
        ((db.rules.find? (fun r => r.id == rule_id && r.user_id == user_id)).getD
          ⟨"", "", "", "", ⟨none, none, none, none, none⟩, "", none, true⟩)
        title condition severity cooldown_minutes is_active).1
      (ok, { db with rules := db.rules.map (fun r =>
        if r.id == rule_id && r.user_id == user_id then
          (update_rule_fields r title condition severity cooldown_minutes is_active).2
        else r) })

/-! ## Monitor creation and deployment (mcp_server lines 159–215,
deployment.py lines 41–101) -/

/-- The dictionary `deploy_monitor` returns. -/
structure DeployResult where
  deployment_id : Option String
  status : String
deriving Repr, DecidableEq

/-- `MonitorDeploymentManager.deploy_monitor` (deployment.py lines
41–101): the whole body is wrapped in `try/except`; a normal return
carries a deployment name and a status (`"deployed"` from the cluster
path, `"deployed_simulated"` from the simulated path), any exception is
caught and turned into `{deployment_id: None, status: "failed"}`
(lines 95–101). -/
def deploy_monitor (apply_outcome : Except String (String × String)) :
    DeployResult :=
  match apply_outcome with
  | .ok r => ⟨some r.1, r.2⟩
  | .error _ => ⟨none, "failed"⟩

/-- `create_monitor` (mcp_server lines 159–215), with secret storage
and the config payload abstracted: the monitor row is inserted first
with the model's default status `"starting"`, the workload apply runs,
and only when the returned `deployment_id` is non-null (line 188) is
the row updated — status `"deploying"` when the apply status is
exactly `"deployed"`, else `"error"` (line 196). -/
def create_monitor (db : DB) (session_user : Option String)
    (name monitor_type : String) (new_id : String)
    (apply_outcome : Except String (String × String)) : Bool × DB :=
  match session_user with
  | none => (false, db)
  | some user_id =>
    let row : Monitor := ⟨new_id, user_id, name, monitor_type, "starting", none, []⟩
    let db1 := { db with monitors := db.monitors ++ [row] }
    let result := deploy_monitor apply_outcome
    match result.deployment_id with
    | some did =>
      (true, { db1 with monitors := db1.monitors.map (fun m =>
        if m.id == new_id then
          { m with deployment_id := some did,
                   status := if result.status = "deployed" then "deploying" else "error" }
        else m) })
    | none => (true, db1)

/-! ## Secret-vault key derivation (auth_manager.py lines 43–46) -/

/-- `AuthManager._derive_encryption_key` (auth_manager.py lines 43–46).
The source computes `key_bytes = hashlib.pbkdf2_hmac('sha256',
master_key.encode(), b'salt', 100000, 32)` and then DISCARDS it: the
return statement is `Fernet.generate_key()`, a fresh random key drawn
from the process RNG at every initialization (the source comments
"For now, generate a new key each time").  The RNG draw is the
explicit `fresh_key` parameter; the result is that draw, independent
of `master_key`. -/
def derive_encryption_key (master_key : String) (fresh_key : ℕ) : ℕ :=
  fresh_key

/-! ## Raw windows and the `float()` coercion (engine.py lines 146–159,
167–209, 234–237) -/

/-- A raw sample field value as the engine's window builder actually
stores it: the InfluxDB record conversion (engine.py lines 146–159) and
the simulation path (lines 177–209) put numbers (`price`,
`response_time`, `status_code`, `value`), booleans (`is_up`) and
STRINGS (`symbol`, `url`) into data points. -/
inductive PyValue where
  | num (q : ℚ)
  | bool (b : Bool)
  | str (s : String)
deriving Repr, DecidableEq

/-- A raw sample: field map whose values are raw stored values, `none`
modelling a stored JSON null. -/
abbrev PySample := List (String × Option PyValue)

/-- The numeric value of a digit list (most significant first). -/
def digits_value (cs : List Char) : ℕ :=
  cs.foldl (fun n c => 10 * n + (c.toNat - 48)) 0

/-- An unsigned decimal literal `⟨digits⟩[.⟨digits⟩]` with at least one
digit, as a rational; `none` on any other shape (a non-digit character
anywhere makes the digit check fail). -/
def parse_decimal_core (int_part frac_part : List Char) : Option ℚ :=
  if int_part.all Char.isDigit && frac_part.all Char.isDigit &&
      (!int_part.isEmpty || !frac_part.isEmpty) then
    some ((digits_value int_part : ℚ) +
      (digits_value frac_part : ℚ) / ((10 : ℚ) ^ frac_part.length))
  else none

/-- Split a character list at its first `'.'`, keeping the rest whole
(a second `'.'` then fails the later digit check). -/
def split_first_dot : List Char → List Char × Option (List Char)
  | [] => ([], none)
  | c :: cs =>
    if c = '.' then ([], some cs)
    else
      let r := split_first_dot cs
      (c :: r.1, r.2)

/-- Python `float(string)` restricted to the sign/digits/fraction core
of its literal grammar: `float("32")`, `float("1.5")`, `float("-2.5")`,
`float(".5")`, `float("5.")` succeed; `float("BTC")`,
`float("https://example.com")` and every other non-literal raise
`ValueError`.  (Whitespace, exponents, underscores, `inf`/`nan` are
accepted by Python but omitted here: no value this program's window
builders store uses them, and every string they do store — coin
symbols, urls, provider names — contains a character that is neither a
digit, a sign nor a single dot, so both Python and this model reject
it.) -/
def parse_decimal (s : String) : Option ℚ :=
  let signed : ℚ × List Char :=
    match s.toList with
    | '-' :: r => (-1, r)
    | '+' :: r => (1, r)
    | r => (1, r)
  let parts := split_first_dot signed.2
  (match parts.2 with
   | none => parse_decimal_core parts.1 []
   | some frac_part => parse_decimal_core parts.1 frac_part).map (signed.1 * ·)

/-- Python `float(x)` as applied at engine.py line 237 to the values a
raw window holds: a number converts to itself, a boolean to 0/1, a
string through the literal parser — or raises `ValueError`. -/
def py_float : PyValue → Except String ℚ
  | .num q => .ok q
  | .bool b => .ok (if b then 1 else 0)
  | .str s =>
    match parse_decimal s with
    | some q => .ok q
    | none => .error "ValueError: could not convert string to float"

/-- The extraction loop of `_evaluate_condition` (engine.py lines
234–237) over a raw window: samples missing the field or holding null
are skipped, every other value goes through `float()`, and the first
non-convertible value raises, aborting the whole call. -/
def extract_field_values_py (field : String) (data_points : List PySample) :
    Except String (List ℚ) :=
  match data_points with
  | [] => .ok []
  | point :: rest =>
    match List.lookup field point with
    | some (some v) =>
      match py_float v with
      | .ok q => (extract_field_values_py field rest).map (q :: ·)
      | .error e => .error e
    | _ => extract_field_values_py field rest

/-- `AlertEngine._evaluate_condition` (engine.py lines 211–269) over
raw windows, with the `float()` coercion's `ValueError` explicit:
`.error` models the exception propagating out of the extraction loop
(line 237), which runs BEFORE the condition-type dispatch (line 255).
On windows whose stored values all convert, this agrees with
`evaluate_condition` over the §3 numeric model. -/
def evaluate_condition_py (condition : Condition) (data_points : List PySample) :
    Except String Bool :=
  if data_points.isEmpty then .ok false
  else
    let condition_type := condition.type.getD "threshold"
    let field := condition.field.getD "value"
    let operator := condition.operator.getD ">"
    let threshold_value := condition.value.getD 0
    let aggregation := condition.aggregation.getD "latest"
    match extract_field_values_py field data_points with
    | .error e => .error e
    | .ok [] => .ok false
    | .ok (v :: vs) =>
      let current_value := aggregate aggregation v vs
      if condition_type = "threshold" then
        .ok (compare_threshold operator current_value threshold_value)
      else
        .ok false

/-- A §3 numeric sample as a raw sample (every value a number). -/
def Sample.toPy (s : Sample) : PySample :=
  s.map (fun p => (p.1, p.2.map PyValue.num))

/-! ## Concrete fixtures used by closed statements -/

/-- Threshold condition `value > 0`. -/
def cond_gt0 : Condition := ⟨some "threshold", some "value", some ">", some 0, none⟩

/-- A rule with `cooldown_minutes = 0`. -/
def rule_cooldown0 : AlertRule :=
  ⟨"rule_1", "mon_1", "usr_1", "spike", cond_gt0, "high", some 0, true⟩

/-- A monitor owned by `usr_1`. -/
def mon1 : Monitor := ⟨"mon_1", "usr_1", "m", "web", "running", none, []⟩

/-- A store holding only `mon1`. -/
def db_one_monitor : DB := ⟨[mon1], [], []⟩

/-- A condition whose `type` value is the unknown string `"banana"`,
with all four required keys present. -/
def cond_banana : Condition := ⟨some "banana", some "price", some ">", some 1, none⟩


/-- A threshold rule owned by `usr_1` on `mon_1`, cooldown 5. -/
def rule_threshold : AlertRule :=
  ⟨"rule_1", "mon_1", "usr_1", "spike", cond_gt0, "high", some 5, true⟩

/-- A store holding `mon1` and `rule_threshold`. -/
def db_monitor_rule : DB := ⟨[mon1], [rule_threshold], []⟩

/-- Dispatch environment: user row present, SendGrid NOT configured, no
webhook URLs, no HTTP call of any kind. -/
def env_email_unconfigured : DispatchEnv :=
  ⟨true, false, none, false, none, false, none, false, none⟩

/-- Dispatch environment of spec scenario 5: email provider answers
202, the slack-style webhook answers 500, the discord-style webhook
answers 200, no teams webhook. -/
def env_scenario5 : DispatchEnv :=
  ⟨true, true, some 202, true, some 500, true, some 200, false, none⟩

/-- A pending alert row before dispatch. -/
def alert_pending : Alert :=
  ⟨"alert_1", "rule_1", "mon_1", "usr_1", "high", "spike", "pending",
   none, none, none, 100⟩

/-- An alert owned by `usr_2`. -/
def alert_other : Alert :=
  ⟨"alert_2", "rule_2", "mon_2", "usr_2", "low", "t", "pending",
   none, none, none, 50⟩

/-- A store holding only `usr_2`'s alert. -/
def db_other_alert : DB := ⟨[], [], [alert_other]⟩

/-- The §3 data-model invariant relating alerts to their monitor's
owner: every alert of a monitor belongs to that monitor's user.  All
facade-reachable states satisfy it (`create_alert_rule` forces
`rule.user_id = monitor.user_id` and the engine copies `rule.user_id`
into the alert). -/
def alert_owner_consistent (db : DB) : Prop :=
  ∀ a ∈ db.alerts, ∀ m ∈ db.monitors, a.monitor_id = m.id → a.user_id = m.user_id


example : evaluate_condition ⟨some "threshold", some "price", some ">", some 50000, some "latest"⟩
    [[("price", some 51000)], [("price", some 49000)]] = true := by decide

example : evaluate_condition ⟨some "threshold", some "price", some ">", some 50000, some "avg"⟩
    [[("price", some 60000)], [("price", some 40000)]] = false := by
  simp +decide [evaluate_condition, extract_field_values, aggregate, compare_threshold,
    List.filterMap_cons, List.lookup]
  norm_num

example : evaluate_condition ⟨some "threshold", some "value", some "==", some 1, none⟩
    [[("value", some (10005/10000))]] = true := by
  simp +decide [evaluate_condition, extract_field_values, aggregate, compare_threshold,
    List.filterMap_cons, List.lookup, abs_sub_lt_iff]
  norm_num

example : evaluate_condition ⟨some "threshold", some "value", some "==", some 1, none⟩
    [[("value", some (1002/1000))]] = false := by
  simp +decide [evaluate_condition, extract_field_values, aggregate, compare_threshold,
    List.filterMap_cons, List.lookup, abs_sub_lt_iff]
  norm_num

example : evaluate_condition ⟨some "threshold", some "price", some ">", some 0, some "latest"⟩
    [[("response_time", some 100)]] = false := by decide

/-- Python `max(field_values)` (a left fold of binary max over the list)
returns an element of the list. -/
lemma foldl_max_mem (v : ℚ) (vs : List ℚ) : vs.foldl max v ∈ v :: vs := by
  induction vs generalizing v with
  | nil => simp
  | cons w vs ih =>
    have h := ih (max v w)
    rw [List.foldl_cons, List.mem_cons] at *
    rcases h with h | h
    · rcases max_choice v w with hm | hm
      · left; rw [h, hm]
      · right; rw [List.mem_cons]; left; rw [h, hm]
    · right; exact List.mem_cons_of_mem w h

/-- Python `max(field_values)` bounds every element of the list. -/
lemma le_foldl_max (v : ℚ) (vs : List ℚ) : ∀ x ∈ v :: vs, x ≤ vs.foldl max v := by
  induction vs generalizing v with
  | nil => simp
  | cons w vs ih =>
    intro x hx
    rw [List.mem_cons, List.mem_cons] at hx
    rw [List.foldl_cons]
    have hhead : max v w ≤ vs.foldl max (max v w) :=
      ih (max v w) (max v w) (List.mem_cons_self _ _)
    rcases hx with hx | hx | hx
    · subst hx; exact le_trans (le_max_left _ _) hhead
    · subst hx; exact le_trans (le_max_right _ _) hhead
    · exact ih (max v w) x (List.mem_cons_of_mem _ hx)

/-- Python `min(field_values)` returns an element of the list. -/
lemma foldl_min_mem (v : ℚ) (vs : List ℚ) : vs.foldl min v ∈ v :: vs := by
  induction vs generalizing v with
  | nil => simp
  | cons w vs ih =>
    have h := ih (min v w)
    rw [List.foldl_cons, List.mem_cons] at *
    rcases h with h | h
    · rcases min_choice v w with hm | hm
      · left; rw [h, hm]
      · right; rw [List.mem_cons]; left; rw [h, hm]
    · right; exact List.mem_cons_of_mem w h

/-- Python `min(field_values)` is below every element of the list. -/
lemma foldl_min_le (v : ℚ) (vs : List ℚ) : ∀ x ∈ v :: vs, vs.foldl min v ≤ x := by
  induction vs generalizing v with
  | nil => simp
  | cons w vs ih =>
    intro x hx
    rw [List.mem_cons, List.mem_cons] at hx
    rw [List.foldl_cons]
    have hhead : vs.foldl min (min v w) ≤ min v w :=
      ih (min v w) (min v w) (List.mem_cons_self _ _)
    rcases hx with hx | hx | hx
    · subst hx; exact le_trans hhead (min_le_left _ _)
    · subst hx; exact le_trans hhead (min_le_right _ _)
    · exact ih (min v w) x (List.mem_cons_of_mem _ hx)

/-- C1: `_evaluate_condition`, given a threshold condition and a
newest-first sample window, follows the spec's four-step algorithm for
every input: (1) an empty window yields `false`; (2) numeric values for
the condition's field are taken from each sample, skipping samples that
lack the field or hold null, and an empty result list yields `false`;
(3) the list is reduced by the aggregation — `latest` takes index 0,
`avg` the arithmetic mean, `max` the maximum, `min` the minimum; (4) the
scalar is compared to the condition's value with the operator, where
`==` holds iff the absolute difference is below tolerance `10⁻³` and
`!=` is its negation, so for value 1.0 a sample 1.0005 makes `==` true
and a sample 1.002 makes it false. -/
theorem C1_evaluator_follows_spec_algorithm :
    (∀ c : Condition, evaluate_condition c [] = false) ∧
    (∀ f : String, extract_field_values f [] = []) ∧
    (∀ (f : String) (s : Sample) (w : List Sample),
      extract_field_values f (s :: w) =
        match List.lookup f s with
        | some (some v) => v :: extract_field_values f w
        | _ => extract_field_values f w) ∧
    (∀ (c : Condition) (w : List Sample),
      extract_field_values (c.field.getD "value") w = [] →
      evaluate_condition c w = false) ∧
    (∀ (c : Condition) (w : List Sample) (v : ℚ) (vs : List ℚ),
      c.type.getD "threshold" = "threshold" →
      extract_field_values (c.field.getD "value") w = v :: vs →
      evaluate_condition c w =
        compare_threshold (c.operator.getD ">")
          (aggregate (c.aggregation.getD "latest") v vs) (c.value.getD 0)) ∧
    (∀ (v : ℚ) (vs : List ℚ), aggregate "latest" v vs = v) ∧
    (∀ (v : ℚ) (vs : List ℚ),
      aggregate "avg" v vs * ((v :: vs).length : ℚ) = (v :: vs).sum) ∧
    (∀ (v : ℚ) (vs : List ℚ),
      aggregate "max" v vs ∈ v :: vs ∧ ∀ x ∈ v :: vs, x ≤ aggregate "max" v vs) ∧
    (∀ (v : ℚ) (vs : List ℚ),
      aggregate "min" v vs ∈ v :: vs ∧ ∀ x ∈ v :: vs, aggregate "min" v vs ≤ x) ∧
    (∀ x t : ℚ, compare_threshold ">" x t = decide (x > t) ∧
      compare_threshold "<" x t = decide (x < t) ∧
      compare_threshold ">=" x t = decide (x ≥ t) ∧
      compare_threshold "<=" x t = decide (x ≤ t)) ∧
    (∀ x t : ℚ, (compare_threshold "==" x t = true ↔ |x - t| < 1/1000)) ∧
    (∀ x t : ℚ, compare_threshold "!=" x t = !(compare_threshold "==" x t)) ∧
    evaluate_condition ⟨some "threshold", some "value", some "==", some 1, none⟩
      [[("value", some (10005/10000))]] = true ∧
    evaluate_condition ⟨some "threshold", some "value", some "==", some 1, none⟩
      [[("value", some (1002/1000))]] = false := by
  refine ⟨fun c => rfl, fun f => rfl, ?_, ?_, ?_, ?_, ?_, ?_, ?_, ?_, ?_, ?_, ?_, ?_⟩
  · intro f s w
    rcases h : List.lookup f s with _ | ⟨_ | v⟩ <;>
      simp [extract_field_values, List.filterMap_cons, h]
  · intro c w h
    cases w with
    | nil => rfl
    | cons s w' => simp [evaluate_condition, h]
  · intro c w v vs hty hex
    cases w with
    | nil => simp [extract_field_values] at hex
    | cons s w' => simp [evaluate_condition, hty, hex]
  · intro v vs
    simp [aggregate]
  · intro v vs
    have hne : (((v :: vs).length : ℚ)) ≠ 0 := by
      have : (0 : ℚ) < ((v :: vs).length : ℚ) := by
        exact_mod_cast List.length_pos.mpr (List.cons_ne_nil v vs)
      exact ne_of_gt this
    have hagg : aggregate "avg" v vs = (v :: vs).sum / ((v :: vs).length : ℚ) := by
      simp +decide [aggregate]
    rw [hagg, div_mul_cancel₀ _ hne]
  · intro v vs
    constructor
    · simpa [aggregate] using foldl_max_mem v vs
    · simpa [aggregate] using le_foldl_max v vs
  · intro v vs
    constructor
    · simpa [aggregate] using foldl_min_mem v vs
    · simpa [aggregate] using foldl_min_le v vs
  · intro x t
    refine ⟨rfl, ?_, ?_, ?_⟩ <;> simp +decide [compare_threshold]
  · intro x t
    simp +decide [compare_threshold]
  · intro x t
    show decide (|x - t| ≥ 1/1000) = !decide (|x - t| < 1/1000)
    rw [← decide_not]
    exact decide_eq_decide.mpr not_lt.symm
  · simp +decide [evaluate_condition, extract_field_values, aggregate, compare_threshold,
      List.filterMap_cons, List.lookup, abs_sub_lt_iff]
    norm_num
  · simp +decide [evaluate_condition, extract_field_values, aggregate, compare_threshold,
      List.filterMap_cons, List.lookup, abs_sub_lt_iff]
    norm_num

/-- Witness for C1: scenario 1 of the spec, rule `price > 50000` with
aggregation `latest` on the window `[{price: 51000}, {price: 49000}]`
goes through the step-3/step-4 dispatch of the algorithm. -/
theorem C1_evaluator_follows_spec_algorithm_witness :
    evaluate_condition ⟨some "threshold", some "price", some ">", some 50000, some "latest"⟩
        [[("price", some 51000)], [("price", some 49000)]] =
      compare_threshold ">" (aggregate "latest" 51000 [49000]) 50000 :=
  C1_evaluator_follows_spec_algorithm.2.2.2.2.1
    ⟨some "threshold", some "price", some ">", some 50000, some "latest"⟩
    [[("price", some 51000)], [("price", some 49000)]] 51000 [49000] rfl (by decide)

/-- C2 counterexample: a rule firing with `cooldown_minutes = 0` gets a
cooldown marker with ttl 300 s — not `max(0, 0)·60 = 0` — and an
immediately subsequent evaluation IS suppressed. -/
theorem C2_counterexample_cooldown_zero_not_disabled :
    set_cooldown_seconds (some 0) = 300 ∧
    set_cooldown_seconds (some 0) ≠ max 0 0 * 60 ∧
    is_in_cooldown (set_cooldown (some []) rule_cooldown0) rule_cooldown0 = true := by
  refine ⟨rfl, by decide, ?_⟩
  simp [is_in_cooldown, set_cooldown, redis_exists, rule_cooldown0, set_cooldown_seconds,
    List.lookup]

/-- C2 amended: whenever a rule fires and the cooldown store is
available, the marker written for it has
`ttl = (cooldown_minutes if cooldown_minutes else 5)·60 s`: a nonzero
cooldown gives `cooldown_minutes·60`, while 0 and NULL both give the
300 s default — so `cooldown_minutes = 0` does NOT disable suppression
and an immediately subsequent evaluation is suppressed. -/
theorem C2_cooldown_ttl_with_default :
    (∀ m : ℤ, m ≠ 0 → set_cooldown_seconds (some m) = m * 60) ∧
    set_cooldown_seconds (some 0) = 300 ∧
    set_cooldown_seconds none = 300 ∧
    (∀ (store : CooldownStore) (rule : AlertRule),
      set_cooldown (some store) rule =
        some (("alert_cooldown:" ++ rule.id,
          set_cooldown_seconds rule.cooldown_minutes) :: store)) ∧
    (∀ (store : CooldownStore) (rule : AlertRule),
      rule.cooldown_minutes = some 0 →
      is_in_cooldown (set_cooldown (some store) rule) rule = true) := by
  refine ⟨?_, rfl, rfl, fun store rule => rfl, ?_⟩
  · intro m hm
    simp [set_cooldown_seconds, hm]
  · intro store rule h
    simp [is_in_cooldown, set_cooldown, redis_exists, h, set_cooldown_seconds, List.lookup]

/-- Witness for C2: a 7-minute cooldown gives ttl 420 s, and the
amended ttl formula suppresses the `cooldown_minutes = 0` rule. -/
theorem C2_cooldown_ttl_with_default_witness :
    set_cooldown_seconds (some 7) = 7 * 60 ∧
    is_in_cooldown (set_cooldown (some []) rule_cooldown0) rule_cooldown0 = true :=
  ⟨C2_cooldown_ttl_with_default.1 7 (by decide),
   C2_cooldown_ttl_with_default.2.2.2.2 [] rule_cooldown0 rfl⟩

/-- C3 counterexample: a condition whose `type` is the unknown value
`"banana"` (all required keys present) is ACCEPTED: `create_alert_rule`
returns success and persists the rule, and `update_alert_rule` likewise
installs it on an existing rule — not the validation error the claim
requires. -/
theorem C3_counterexample_unknown_type_accepted :
    (create_alert_rule db_one_monitor (some "usr_1") "mon_1" "t" cond_banana
      "high" 5 "rule_9").1 = true ∧
    (create_alert_rule db_one_monitor (some "usr_1") "mon_1" "t" cond_banana
      "high" 5 "rule_9").2.rules =
      [⟨"rule_9", "mon_1", "usr_1", "t", cond_banana, "high", some 5, true⟩] ∧
    (update_alert_rule db_monitor_rule (some "usr_1") "rule_1" none
      (some cond_banana) none none none).1 = true ∧
    (update_alert_rule db_monitor_rule (some "usr_1") "rule_1" none
      (some cond_banana) none none none).2.rules =
      [⟨"rule_1", "mon_1", "usr_1", "spike", cond_banana, "high", some 5, true⟩] := by
  refine ⟨?_, ?_, ?_, ?_⟩ <;> decide

/-- C3 amended: `create_alert_rule` and `update_alert_rule` validate a
condition only for the PRESENCE of the keys `type`, `field`,
`operator`, `value` (and the severity whitelist, and monitor/rule
ownership); the value under `type` is never inspected, so a condition
with an unknown type passes validation and is persisted unchanged —
the evaluator can then be invoked on it (and fails closed). -/
theorem C3_validation_checks_key_presence_only :
    (∀ (db : DB) (user monitor_id title new_id : String) (c : Condition)
      (sev : String) (cd : ℤ),
      (Monitor_get_by_id_and_user db monitor_id user).isSome →
      condition_has_required_fields c = true →
      valid_severities.contains sev = true →
      create_alert_rule db (some user) monitor_id title c sev cd new_id =
        (true, { db with rules := db.rules ++
          [⟨new_id, monitor_id, user, title, c, sev, some cd, true⟩] })) ∧
    (∀ (db : DB) (user rule_id : String) (c : Condition),
      (db.rules.find? (fun r => r.id == rule_id && r.user_id == user)).isSome →
      condition_has_required_fields c = true →
      update_alert_rule db (some user) rule_id none (some c) none none none =
        (true, { db with rules := db.rules.map (fun r =>
          if r.id == rule_id && r.user_id == user then { r with condition := c }
          else r) })) := by
  constructor
  · intro db user monitor_id title new_id c sev cd hown hc hsev
    obtain ⟨m, hm⟩ := Option.isSome_iff_exists.mp hown
    simp [create_alert_rule, hm, hc, hsev]
    simpa using hsev
  · intro db user rule_id c hfound hc
    obtain ⟨r0, hr⟩ := Option.isSome_iff_exists.mp hfound
    simp [update_alert_rule, hr, update_rule_fields, update_rule_severity_onward,
      update_rule_tail, hc]

/-- Witness for C3: the concrete `"banana"`-typed condition is accepted
and persisted through the amended characterization. -/
theorem C3_validation_checks_key_presence_only_witness :
    create_alert_rule db_one_monitor (some "usr_1") "mon_1" "t" cond_banana
      "high" 5 "rule_9" =
      (true, { db_one_monitor with rules :=
        [⟨"rule_9", "mon_1", "usr_1", "t", cond_banana, "high", some 5, true⟩] }) :=
  C3_validation_checks_key_presence_only.1 db_one_monitor "usr_1" "mon_1" "t"
    "rule_9" cond_banana "high" 5 (by decide) (by decide) (by decide)

/-- C4: the secret vault's encryption key is NOT a deterministic
function of the configured master key: `_derive_encryption_key`
discards the PBKDF2 digest it computes and returns a fresh RNG draw
(`Fernet.generate_key()`), so two initializations with the same master
key obtain different keys whenever their draws differ, and the result
never depends on the master key at all. -/
theorem C4_encryption_key_is_fresh_random :
    derive_encryption_key "your-master-encryption-key-here" 0 ≠
      derive_encryption_key "your-master-encryption-key-here" 1 ∧
    (∀ (mk mk2 : String) (fresh : ℕ),
      derive_encryption_key mk fresh = derive_encryption_key mk2 fresh) :=
  ⟨by decide, fun _ _ _ => rfl⟩

/-- C5 counterexample: when the workload apply fails, `create_monitor`
leaves the freshly inserted row with status `"starting"` — the
`deployment_id`-guarded update block is skipped, so the status is never
set to `"error"`. -/
theorem C5_counterexample_apply_failure_keeps_starting :
    (create_monitor ⟨[], [], []⟩ (some "usr_1") "m" "web" "mon_1"
      (.error "cluster unavailable")).2.monitors =
      [⟨"mon_1", "usr_1", "m", "web", "starting", none, []⟩] ∧
    ("starting" : String) ≠ "error" := by
  exact ⟨rfl, by decide⟩

/-- C5 amended: for every `create_monitor` call whose workload apply
fails (raises), the relational row is inserted and NOT deleted, but its
status remains the insert default `"starting"` rather than `"error"`:
the status/deployment update only runs when a non-null `deployment_id`
came back, and the failure dictionary carries `deployment_id: None`. -/
theorem C5_apply_failure_row_kept_status_starting :
    ∀ (db : DB) (user name monitor_type new_id e : String),
      create_monitor db (some user) name monitor_type new_id (.error e) =
        (true, { db with monitors := db.monitors ++
          [⟨new_id, user, name, monitor_type, "starting", none, []⟩] }) := by
  intro db user name monitor_type new_id e
  rfl

/-- C6 counterexample: with SendGrid unconfigured and no webhooks,
`_send_email_notification` returns without making ANY HTTP call, yet
`"email"` is appended to `delivered_channels` and the alert is marked
`delivered` — so `delivered_channels` is not the set of channels whose
HTTP call returned 2xx (that set is empty here).  Also, in spec
scenario 5 (email 202, slack-style 500, discord-style 200) the
discord-style channel's 200 is NOT recorded, because the slack send
closed the shared HTTP client. -/
theorem C6_counterexample_email_counted_without_http :
    delivered_channels_of env_email_unconfigured = ["email"] ∧
    env_email_unconfigured.sendgrid_configured = false ∧
    env_email_unconfigured.email_http = none ∧
    (send_alert_notification env_email_unconfigured alert_pending 5).status
      = "delivered" ∧
    (send_alert_notification env_email_unconfigured alert_pending 5).delivered_channels
      = some ["email"] ∧
    delivered_channels_of env_scenario5 = ["email"] := by
  refine ⟨?_, rfl, rfl, ?_, ?_, ?_⟩ <;> decide

/-- C6 amended: after the dispatcher processes one alert (whose user
row exists), `delivered_channels` equals the set of channels whose send
attempt raised no exception: email is included iff the mail client was
unconfigured (no HTTP call at all) or its provider call returned 2xx; a
webhook channel is included iff its URL is configured, every earlier
webhook channel was unconfigured (each webhook attempt closes the
shared HTTP client, so only the first configured webhook can succeed),
and its HTTP call returned 2xx.  `delivered_at` is set, and `status` is
`"delivered"` iff the set is non-empty, else `"failed"`. -/
theorem C6_delivered_channels_accounting :
    ∀ (env : DispatchEnv) (alert : Alert) (now : ℕ),
      env.user_found = true →
      (("email" ∈ delivered_channels_of env) ↔
        (env.sendgrid_configured = false ∨ is_2xx env.email_http = true)) ∧
      (("slack" ∈ delivered_channels_of env) ↔
        (env.slack_webhook = true ∧ is_2xx env.slack_http = true)) ∧
      (("discord" ∈ delivered_channels_of env) ↔
        (env.discord_webhook = true ∧ env.slack_webhook = false ∧
         is_2xx env.discord_http = true)) ∧
      (("teams" ∈ delivered_channels_of env) ↔
        (env.teams_webhook = true ∧ env.slack_webhook = false ∧
         env.discord_webhook = false ∧ is_2xx env.teams_http = true)) ∧
      send_alert_notification env alert now =
        { alert with
          delivered_channels := some (delivered_channels_of env),
          delivered_at := some now,
          status := if (delivered_channels_of env).isEmpty then "failed"
            else "delivered" } := by
  intro env alert now hu
  refine ⟨?_, ?_, ?_, ?_, ?_⟩
  · cases hsg : env.sendgrid_configured <;>
      cases he : is_2xx env.email_http <;>
        simp +decide [delivered_channels_of, send_email_ok, send_webhook, hsg, he]
  · cases hsl : env.slack_webhook <;>
      cases hs : is_2xx env.slack_http <;>
        simp +decide [delivered_channels_of, send_email_ok, send_webhook, hsl, hs]
  · cases hsl : env.slack_webhook <;>
      cases hd : env.discord_webhook <;>
        cases hdh : is_2xx env.discord_http <;>
          simp +decide [delivered_channels_of, send_email_ok, send_webhook, hsl, hd, hdh]
  · cases hsl : env.slack_webhook <;>
      cases hd : env.discord_webhook <;>
        cases ht : env.teams_webhook <;>
          cases hth : is_2xx env.teams_http <;>
            simp +decide [delivered_channels_of, send_email_ok, send_webhook,
              hsl, hd, ht, hth]
  · simp [send_alert_notification, update_alert_delivery_status, hu]

/-- Witness for C6: the accounting characterization applied to the
unconfigured-SendGrid environment. -/
theorem C6_delivered_channels_accounting_witness :
    ("email" ∈ delivered_channels_of env_email_unconfigured) ↔
      (env_email_unconfigured.sendgrid_configured = false ∨
       is_2xx env_email_unconfigured.email_http = true) :=
  (C6_delivered_channels_accounting env_email_unconfigured alert_pending 5 rfl).1

/-- C7: failure isolation in the alert engine.  The per-rule loop of a
tick processes every rule — the processed list projects back to the
full rule list, and a rule's report depends only on its own outcome,
with the reports of the rules before and after an arbitrary rule
unchanged by that rule's failure; and one iteration of the engine loop
continues (and sleeps the configured interval) whether the tick
returned normally or raised. -/
theorem C7_per_rule_and_per_tick_failures_isolated :
    (∀ (rule_outcome : AlertRule → Except String Unit) (rules : List AlertRule),
      (evaluation_cycle rule_outcome rules).map Prod.fst = rules) ∧
    (∀ (rule_outcome : AlertRule → Except String Unit)
      (pre post : List AlertRule) (rule : AlertRule),
      evaluation_cycle rule_outcome (pre ++ rule :: post) =
        evaluation_cycle rule_outcome pre ++
          (rule, match rule_outcome rule with
            | .ok _ => none
            | .error e => some e) :: evaluation_cycle rule_outcome post) ∧
    (∀ (tick : Except String Unit) (T : ℕ),
      engine_loop_iteration tick T = (true, T)) := by
  refine ⟨?_, ?_, ?_⟩
  · intro rule_outcome rules
    induction rules with
    | nil => rfl
    | cons r rs ih =>
      simp only [evaluation_cycle, List.map_cons] at *
      cases rule_outcome r <;> simp_all
  · intro rule_outcome pre post rule
    simp only [evaluation_cycle, List.map_append, List.map_cons]
    cases rule_outcome rule <;> simp
  · intro tick T
    cases tick <;> rfl

/-- C9: when a rule's condition evaluates true but persisting the alert
row raises, `_create_alert` swallows the exception and `_evaluate_rule`
still runs `_set_cooldown`: the cooldown marker is written with the
full computed ttl although no alert row was committed and no
notification was dispatched; with a positive cooldown the rule is
therefore suppressed on the immediately following evaluation. -/
theorem C9_persist_failure_still_sets_cooldown :
    (∀ (rule : AlertRule) (store : CooldownStore) (monitor_data : List Sample)
      (env : CreateAlertEnv) (e : String),
      is_in_cooldown (some store) rule = false →
      monitor_data.isEmpty = false →
      evaluate_condition rule.condition monitor_data = true →
      env.persist = .error e →
      evaluate_rule rule (some store) monitor_data env =
        (some (("alert_cooldown:" ++ rule.id,
            set_cooldown_seconds rule.cooldown_minutes) :: store),
          true, false, false)) ∧
    (∀ (rule : AlertRule) (store : CooldownStore) (monitor_data : List Sample)
      (env : CreateAlertEnv) (e : String) (m : ℤ),
      is_in_cooldown (some store) rule = false →
      monitor_data.isEmpty = false →
      evaluate_condition rule.condition monitor_data = true →
      env.persist = .error e →
      rule.cooldown_minutes = some m →
      0 < m →
      is_in_cooldown (evaluate_rule rule (some store) monitor_data env).1 rule
        = true) := by
  have key : ∀ (rule : AlertRule) (store : CooldownStore)
      (monitor_data : List Sample) (env : CreateAlertEnv) (e : String),
      is_in_cooldown (some store) rule = false →
      monitor_data.isEmpty = false →
      evaluate_condition rule.condition monitor_data = true →
      env.persist = .error e →
      evaluate_rule rule (some store) monitor_data env =
        (some (("alert_cooldown:" ++ rule.id,
            set_cooldown_seconds rule.cooldown_minutes) :: store),
          true, false, false) := by
    intro rule store monitor_data env e hcd hne htrig hp
    have hca : create_alert env = (false, false) := by
      cases hm : env.monitor <;> simp [create_alert, hm, hp]
    simp [evaluate_rule, hcd, hne, htrig, hca, set_cooldown]
  refine ⟨key, ?_⟩
  intro rule store monitor_data env e m hcd hne htrig hp hm hpos
  rw [key rule store monitor_data env e hcd hne htrig hp]
  simp [is_in_cooldown, redis_exists, List.lookup, set_cooldown_seconds, hm]
  split <;> omega

/-- Witness for C9: the concrete rule with cooldown 5 fires on a window
with `value = 1`, the alert commit raises `"db down"`, and the result
is the cooldown marker with ttl 300 s, no alert row, no notification. -/
theorem C9_persist_failure_still_sets_cooldown_witness :
    evaluate_rule rule_threshold (some []) [[("value", some 1)]]
      ⟨some mon1, .error "db down", .ok ()⟩ =
      (some [("alert_cooldown:" ++ "rule_1", set_cooldown_seconds (some 5))],
        true, false, false) :=
  C9_persist_failure_still_sets_cooldown.1 rule_threshold []
    [[("value", some 1)]] ⟨some mon1, .error "db down", .ok ()⟩ "db down"
    rfl rfl (by decide) rfl

/-- Every update path of `update_alert_rule`'s field loop leaves the
row's owner untouched. -/
lemma update_rule_tail_user_id (r : AlertRule) (cd : Option ℤ)
    (act : Option Bool) : (update_rule_tail r cd act).user_id = r.user_id := by
  unfold update_rule_tail
  cases cd <;> cases act <;> rfl

/-- The severity step (and everything after it) preserves the owner. -/
lemma update_rule_severity_onward_user_id (r : AlertRule) (sv : Option String)
    (cd : Option ℤ) (act : Option Bool) :
    ((update_rule_severity_onward r sv cd act).2).user_id = r.user_id := by
  unfold update_rule_severity_onward
  cases sv with
  | none => simp [update_rule_tail_user_id]
  | some s =>
    by_cases h : s ∈ valid_severities <;> simp [h, update_rule_tail_user_id]

/-- The whole field-update loop preserves the owner. -/
lemma update_rule_fields_user_id (r : AlertRule) (t : Option String)
    (c : Option Condition) (sv : Option String) (cd : Option ℤ)
    (act : Option Bool) :
    ((update_rule_fields r t c sv cd act).2).user_id = r.user_id := by
  unfold update_rule_fields
  cases t <;> cases c <;>
    simp [update_rule_severity_onward_user_id] <;>
    split <;> simp [update_rule_severity_onward_user_id]

/-- Membership through the descending insertion step. -/
lemma mem_insert_desc {b a : Alert} :
    ∀ {l : List Alert}, b ∈ insert_desc a l → b = a ∨ b ∈ l := by
  intro l
  induction l with
  | nil =>
    intro h
    simpa [insert_desc] using h
  | cons x xs ih =>
    intro h
    unfold insert_desc at h
    split at h
    · exact List.mem_cons.mp h
    · rcases List.mem_cons.mp h with h | h
      · exact Or.inr (by simp [h])
      · rcases ih h with h2 | h2
        · exact Or.inl h2
        · exact Or.inr (List.mem_cons_of_mem x h2)

/-- Membership through the descending sort. -/
lemma mem_sort_desc {b : Alert} :
    ∀ {l : List Alert}, b ∈ sort_desc l → b ∈ l := by
  intro l
  induction l with
  | nil =>
    intro h
    simpa [sort_desc] using h
  | cons x xs ih =>
    intro h
    unfold sort_desc at h
    rcases mem_insert_desc h with h | h
    · simp [h]
    · exact List.mem_cons_of_mem x (ih h)

/-- C8: ownership invariant of the tool facade.  For each
entity-targeted operation invoked with a resolved caller: the returned
monitor of `get_monitor_status` belongs to the caller, and (under the
§3 invariant tying alerts to their monitor's owner) so does every
returned alert; `acknowledge_alert` returns and rewrites only
caller-owned alert rows; `update_alert_rule` rewrites only caller-owned
rule rows; `delete_alert_rule` removes only caller-owned rule rows;
`delete_monitor` (on a store whose monitor ids are unique, the primary
key) removes only caller-owned monitor rows.  In every case, when the
entity is absent or owned by another user the operation fails and the
store is unchanged. -/
theorem C8_ownership_invariant :
    (∀ (db : DB) (user monitor_id : String),
      alert_owner_consistent db →
      (∀ m : Monitor,
        (get_monitor_status db (some user) monitor_id).2.1 = some m →
        m.user_id = user) ∧
      (∀ a ∈ (get_monitor_status db (some user) monitor_id).2.2,
        a.user_id = user) ∧
      (Monitor_get_by_id_and_user db monitor_id user = none →
        get_monitor_status db (some user) monitor_id = (false, none, []))) ∧
    (∀ (db : DB) (user alert_id : String) (now : ℕ),
      (∀ a : Alert,
        (acknowledge_alert db (some user) alert_id now).2.2 = some a →
        a.user_id = user) ∧
      (∀ b ∈ (acknowledge_alert db (some user) alert_id now).2.1.alerts,
        b ∉ db.alerts → b.user_id = user) ∧
      (∀ a ∈ db.alerts,
        a ∉ (acknowledge_alert db (some user) alert_id now).2.1.alerts →
        a.user_id = user) ∧
      (db.alerts.find? (fun a => a.id == alert_id && a.user_id == user) = none →
        acknowledge_alert db (some user) alert_id now = (false, db, none))) ∧
    (∀ (db : DB) (user rule_id : String) (title : Option String)
      (condition : Option Condition) (severity : Option String)
      (cooldown_minutes : Option ℤ) (active : Option Bool),
      (∀ b ∈ (update_alert_rule db (some user) rule_id title condition severity
          cooldown_minutes active).2.rules, b ∉ db.rules → b.user_id = user) ∧
      (∀ r ∈ db.rules,
        r ∉ (update_alert_rule db (some user) rule_id title condition severity
          cooldown_minutes active).2.rules → r.user_id = user) ∧
      (db.rules.find? (fun r => r.id == rule_id && r.user_id == user) = none →
        update_alert_rule db (some user) rule_id title condition severity
          cooldown_minutes active = (false, db))) ∧
    (∀ (db : DB) (user rule_id : String),
      (∀ r ∈ db.rules,
        r ∉ (delete_alert_rule db (some user) rule_id).2.rules →
        r.user_id = user) ∧
      (db.rules.find? (fun r => r.id == rule_id && r.user_id == user) = none →
        delete_alert_rule db (some user) rule_id = (false, db))) ∧
    (∀ (db : DB) (user monitor_id : String),
      (db.monitors.map Monitor.id).Nodup →
      (∀ m ∈ db.monitors,
        m ∉ (delete_monitor db (some user) monitor_id).2.monitors →
        m.user_id = user) ∧
      (Monitor_get_by_id_and_user db monitor_id user = none →
        delete_monitor db (some user) monitor_id = (false, db))) := by
  refine ⟨?_, ?_, ?_, ?_, ?_⟩
  · -- get_monitor_status
    intro db user monitor_id hwf
    refine ⟨?_, ?_, ?_⟩
    · intro m hm
      cases hfind : Monitor_get_by_id_and_user db monitor_id user with
      | none => simp [get_monitor_status, hfind] at hm
      | some m0 =>
        simp only [get_monitor_status, hfind, Option.some.injEq] at hm
        unfold Monitor_get_by_id_and_user at hfind
        have hp := List.find?_some hfind
        simp at hp
        rw [← hm]
        exact hp.2
    · intro a ha
      cases hfind : Monitor_get_by_id_and_user db monitor_id user with
      | none => simp [get_monitor_status, hfind] at ha
      | some m0 =>
        simp only [get_monitor_status, hfind] at ha
        unfold Alert_get_by_monitor at ha
        have ha1 := mem_sort_desc (List.mem_of_mem_take ha)
        have ha2 := List.mem_filter.mp ha1
        unfold Monitor_get_by_id_and_user at hfind
        have hp := List.find?_some hfind
        have hm0mem := List.mem_of_find?_eq_some hfind
        simp at hp
        have hpa : a.monitor_id = monitor_id := by simpa using ha2.2
        have := hwf a ha2.1 m0 hm0mem (by rw [hpa, hp.1])
        rw [this, hp.2]
    · intro hnone
      simp [get_monitor_status, hnone]
  · -- acknowledge_alert
    intro db user alert_id now
    refine ⟨?_, ?_, ?_, ?_⟩
    · intro a ha
      cases hfind : db.alerts.find? (fun x => x.id == alert_id && x.user_id == user) with
      | none => simp [acknowledge_alert, hfind] at ha
      | some a0 =>
        simp only [acknowledge_alert, hfind, Option.some.injEq] at ha
        have hp := List.find?_some hfind
        simp at hp
        rw [← ha]
        exact hp.2
    · intro b hb hnotold
      cases hfind : db.alerts.find? (fun x => x.id == alert_id && x.user_id == user) with
      | none =>
        simp only [acknowledge_alert, hfind] at hb
        exact absurd hb hnotold
      | some a0 =>
        simp only [acknowledge_alert, hfind] at hb
        rcases List.mem_map.mp hb with ⟨x, hx, hfx⟩
        by_cases hc : (x.id == alert_id && x.user_id == user) = true
        · rw [if_pos hc] at hfx
          simp at hc
          rw [← hfx]
          exact hc.2
        · rw [if_neg hc] at hfx
          exact absurd (hfx ▸ hx) hnotold
    · intro a ha hnotnew
      cases hfind : db.alerts.find? (fun x => x.id == alert_id && x.user_id == user) with
      | none =>
        simp only [acknowledge_alert, hfind] at hnotnew
        exact absurd ha hnotnew
      | some a0 =>
        simp only [acknowledge_alert, hfind] at hnotnew
        by_cases hc : (a.id == alert_id && a.user_id == user) = true
        · simp at hc
          exact hc.2
        · exfalso
          refine hnotnew (List.mem_map.mpr ⟨a, ha, ?_⟩)
          rw [if_neg hc]
    · intro hnone
      simp [acknowledge_alert, hnone]
  · -- update_alert_rule
    intro db user rule_id title condition severity cooldown_minutes active
    refine ⟨?_, ?_, ?_⟩
    · intro b hb hnotold
      cases hfind : db.rules.find? (fun x => x.id == rule_id && x.user_id == user) with
      | none =>
        simp only [update_alert_rule, hfind] at hb
        exact absurd hb hnotold
      | some r0 =>
        simp only [update_alert_rule, hfind] at hb
        rcases List.mem_map.mp hb with ⟨x, hx, hfx⟩
        by_cases hc : (x.id == rule_id && x.user_id == user) = true
        · rw [if_pos hc] at hfx
          simp at hc
          rw [← hfx, update_rule_fields_user_id]
          exact hc.2
        · rw [if_neg hc] at hfx
          exact absurd (hfx ▸ hx) hnotold
    · intro r hr hnotnew
      cases hfind : db.rules.find? (fun x => x.id == rule_id && x.user_id == user) with
      | none =>
        simp only [update_alert_rule, hfind] at hnotnew
        exact absurd hr hnotnew
      | some r0 =>
        simp only [update_alert_rule, hfind] at hnotnew
        by_cases hc : (r.id == rule_id && r.user_id == user) = true
        · simp at hc
          exact hc.2
        · exfalso
          refine hnotnew (List.mem_map.mpr ⟨r, hr, ?_⟩)
          rw [if_neg hc]
    · intro hnone
      simp [update_alert_rule, hnone]
  · -- delete_alert_rule
    intro db user rule_id
    refine ⟨?_, ?_⟩
    · intro r hr hnot
      cases hfind : db.rules.find? (fun x => x.id == rule_id && x.user_id == user) with
      | none =>
        simp only [delete_alert_rule, hfind] at hnot
        exact absurd hr hnot
      | some r0 =>
        simp only [delete_alert_rule, hfind] at hnot
        by_cases hc : (r.id == rule_id && r.user_id == user) = true
        · simp at hc
          exact hc.2
        · exfalso
          refine hnot (List.mem_filter.mpr ⟨hr, ?_⟩)
          simp [eq_false_of_ne_true hc]
    · intro hnone
      simp [delete_alert_rule, hnone]
  · -- delete_monitor
    intro db user monitor_id hnodup
    refine ⟨?_, ?_⟩
    · intro m hm hnot
      cases hfind : Monitor_get_by_id_and_user db monitor_id user with
      | none =>
        simp only [delete_monitor, hfind] at hnot
        exact absurd hm hnot
      | some m0 =>
        simp only [delete_monitor, hfind] at hnot
        by_cases hc : (m.id == monitor_id) = true
        · have hid : m.id = monitor_id := by simpa using hc
          unfold Monitor_get_by_id_and_user at hfind
          have hp := List.find?_some hfind
          have hm0mem := List.mem_of_find?_eq_some hfind
          simp at hp
          have heq : m = m0 :=
            List.inj_on_of_nodup_map hnodup hm hm0mem (by rw [hid, hp.1])
          rw [heq]
          exact hp.2
        · exfalso
          refine hnot (List.mem_filter.mpr ⟨hm, ?_⟩)
          simp [eq_false_of_ne_true hc]
    · intro hnone
      simp [delete_monitor, hnone]

/-- Witness for C8: on concrete stores, the returned monitor belongs to
the caller; acknowledging another user's alert fails and changes
nothing; and a caller who does not own `mon_1` cannot delete it. -/
theorem C8_ownership_invariant_witness :
    mon1.user_id = "usr_1" ∧
    acknowledge_alert db_other_alert (some "usr_1") "alert_2" 7 =
      (false, db_other_alert, none) ∧
    delete_monitor db_one_monitor (some "usr_2") "mon_1" =
      (false, db_one_monitor) :=
  ⟨(C8_ownership_invariant.1 db_one_monitor "usr_1" "mon_1"
      (by intro a ha; simp [db_one_monitor] at ha)).1 mon1 (by decide),
   (C8_ownership_invariant.2.1 db_other_alert "usr_1" "alert_2" 7).2.2.2 (by decide),
   (C8_ownership_invariant.2.2.2.2 db_one_monitor "usr_2" "mon_1" (by decide)).2
     (by decide)⟩

/-- Looking a field up in the raw image of a numeric sample. -/
lemma lookup_toPy (f : String) (s : Sample) :
    List.lookup f (Sample.toPy s) =
      (List.lookup f s).map (Option.map PyValue.num) := by
  induction s with
  | nil => rfl
  | cons p rest ih =>
    simp only [Sample.toPy, List.map_cons, List.lookup] at *
    cases hp : f == p.1 <;> simp [hp, ih]

/-- On the raw image of a numeric window, extraction never raises and
returns exactly the numeric extraction. -/
lemma extract_toPy (f : String) (w : List Sample) :
    extract_field_values_py f (w.map Sample.toPy) =
      .ok (extract_field_values f w) := by
  induction w with
  | nil => rfl
  | cons s rest ih =>
    simp only [List.map_cons, extract_field_values_py, lookup_toPy]
    cases hl : List.lookup f s with
    | none => simp [extract_field_values, List.filterMap_cons, hl, ih]
    | some o =>
      cases o with
      | none => simp [extract_field_values, List.filterMap_cons, hl, ih]
      | some v =>
        simp [extract_field_values, List.filterMap_cons, hl, ih, py_float,
          Except.map]

/-- C10 counterexample: over the raw windows the engine actually builds
the evaluator is NOT total on unknown condition types.  The `float()`
coercion runs before the type dispatch, so the condition
`{type: "banana", field: "symbol", operator: ">", value: 1}` — which
the facade's key-presence validation accepts — raises `ValueError` on a
window holding `symbol = "BTC"` (the shape both the InfluxDB and the
simulation window builders produce) instead of returning false. -/
theorem C10_counterexample_string_field_raises :
    evaluate_condition_py ⟨some "banana", some "symbol", some ">", some 1, none⟩
        [[("symbol", some (.str "BTC"))]] =
      .error "ValueError: could not convert string to float" ∧
    evaluate_condition_py ⟨some "banana", some "symbol", some ">", some 1, none⟩
        [[("symbol", some (.str "BTC"))]] ≠ .ok false := by
  have h : evaluate_condition_py
      ⟨some "banana", some "symbol", some ">", some 1, none⟩
      [[("symbol", some (.str "BTC"))]] =
      .error "ValueError: could not convert string to float" := rfl
  exact ⟨h, by simp [h]⟩

/-- C10 amended: `_evaluate_condition` fails closed on unknown
condition types only as far as value extraction succeeds.  (1) For a
condition whose `type` key is present with a value other than
`"threshold"`, it returns false without raising whenever extracting the
field's values raises nothing — in particular on every window whose
stored values under the field are numbers, booleans, numeric-literal
strings, nulls or missing.  (2) When extraction raises (a
non-convertible string under the field), the exception propagates
BEFORE the type dispatch, for threshold and unknown types alike, so the
evaluator is not total.  (3) A condition missing the `type` key behaves
exactly as `"threshold"`.  (4) On raw images of §3 numeric windows the
evaluator never raises and agrees with the numeric model. -/
theorem C10_evaluator_fails_closed_only_when_extraction_succeeds :
    (∀ (c : Condition) (t : String) (w : List PySample) (vals : List ℚ),
      c.type = some t → t ≠ "threshold" →
      extract_field_values_py (c.field.getD "value") w = .ok vals →
      evaluate_condition_py c w = .ok false) ∧
    (∀ (c : Condition) (w : List PySample) (e : String),
      extract_field_values_py (c.field.getD "value") w = .error e →
      evaluate_condition_py c w = .error e) ∧
    (∀ (c : Condition) (w : List PySample),
      c.type = none →
      evaluate_condition_py c w =
        evaluate_condition_py { c with type := some "threshold" } w) ∧
    (∀ (c : Condition) (w : List Sample),
      evaluate_condition_py c (w.map Sample.toPy) =
        .ok (evaluate_condition c w)) := by
  refine ⟨?_, ?_, ?_, ?_⟩
  · intro c t w vals hty hne hex
    cases w with
    | nil => rfl
    | cons s rest =>
      cases vals with
      | nil => simp [evaluate_condition_py, hty, hex]
      | cons v vs => simp [evaluate_condition_py, hty, hex, hne]
  · intro c w e hex
    cases w with
    | nil => simp [extract_field_values_py] at hex
    | cons s rest => simp [evaluate_condition_py, hex]
  · intro c w hty
    simp [evaluate_condition_py, hty]
  · intro c w
    cases w with
    | nil => rfl
    | cons s rest =>
      have hx := extract_toPy (c.field.getD "value") (s :: rest)
      simp only [List.map_cons] at hx
      cases hex : extract_field_values (c.field.getD "value") (s :: rest) with
      | nil =>
        rw [hex] at hx
        simp [evaluate_condition_py, evaluate_condition, hx, hex]
      | cons v vs =>
        rw [hex] at hx
        by_cases hth : c.type.getD "threshold" = "threshold" <;>
          simp [evaluate_condition_py, evaluate_condition, hx, hex, hth]

/-- Witness for C10: a condition with unknown type `"spike"` on a raw
window whose extraction succeeds (a numeric `price`) evaluates to
`.ok false` — fail-closed, no exception. -/
theorem C10_evaluator_fails_closed_only_when_extraction_succeeds_witness :
    evaluate_condition_py ⟨some "spike", some "price", some ">", some 0, none⟩
      [[("price", some (.num 100))]] = .ok false :=
  C10_evaluator_fails_closed_only_when_extraction_succeeds.1
    ⟨some "spike", some "price", some ">", some 0, none⟩ "spike"
    [[("price", some (.num 100))]] [100] rfl (by decide) rfl
